import Mathlib

/-!
Verification of the SceneManager scene-preparation and rendering layer
(`SceneManager.cpp`).

The development is a shallow embedding of the C++ source:

* `OBJECT_MATERIAL` and `TEXTURE_INFO` mirror the record types used by the
  registries.  Float-valued material constants are modelled as rationals:
  they are only stored and copied by the embedded code, never compared or
  combined arithmetically, so the exact carrier is irrelevant to the
  properties proved here.
* The texture registry `m_textureIDs` (a fixed array of capacity 16 indexed
  by `m_loadedTextures`) is modelled as a list of its first
  `m_loadedTextures` entries; every scenario considered here stays far below
  the capacity bound.
* Calls into OpenGL are recorded as an explicit trace of `GLCall` events so
  that resource creation and release can be reasoned about.  `glGenTextures`
  is modelled as handing out fresh names from a monotone counter
  `nextTexName`.
* The external image decoder (`stbi_load`) is modelled as an oracle
  `env : String -> Option Image` mapping a file name to its decode result.
* The shader manager pointer `m_pShaderManager` is modelled as an
  `Option ShaderUniforms`; `none` models a NULL pointer.  Operations that
  would dereference a NULL pointer return `none` in an `Option` result.
-/

/-- A 3-component vector of rationals (models `glm::vec3` as used for
material colors; the components are data carried through, never
arithmetically combined by the embedded code). -/
structure Vec3 where
  x : ℚ
  y : ℚ
  z : ℚ
deriving DecidableEq, Repr

/-- A 4-component color (models `glm::vec4` in `SetShaderColor`). -/
structure Vec4 where
  r : ℚ
  g : ℚ
  b : ℚ
  a : ℚ
deriving DecidableEq, Repr

/-- Mirrors the `OBJECT_MATERIAL` struct: diffuse color, specular color,
shininess exponent, and the lookup tag. -/
structure OBJECT_MATERIAL where
  diffuseColor : Vec3
  specularColor : Vec3
  shininess : ℚ
  tag : String
deriving DecidableEq, Repr

/-- Mirrors the `TEXTURE_INFO` entries of `m_textureIDs`: the OpenGL
texture name (`GLuint ID`) and the lookup tag. -/
structure TEXTURE_INFO where
  ID : Nat
  tag : String
deriving DecidableEq, Repr

/-- Decode result delivered by the image decoder (`stbi_load`):
width, height and channel count. -/
structure Image where
  width : Int
  height : Int
  channels : Int
deriving DecidableEq, Repr

/-- One call into the OpenGL API, recorded so that GPU resource
creation/release can be stated.  `genTextures n` records
`glGenTextures(1, &id)` returning the fresh name `n`;
`deleteTextures n` records `glDeleteTextures(1, &id)` on name `n`
(the source never issues it, but the event is needed to state that). -/
inductive GLCall where
  | genTextures (id : Nat)
  | bindTexture2D (id : Nat)
  | texParameteri
  | texImage2D (channels : Int)
  | generateMipmap
  | activeTexture (unit : Nat)
  | deleteTextures (id : Nat)
deriving DecidableEq, Repr

/-- Recognizes a `deleteTextures` event in a GL trace. -/
def GLCall.isDelete : GLCall → Bool
  | .deleteTextures _ => true
  | _ => false

/-- Recognizes a `genTextures` event in a GL trace. -/
def GLCall.isGen : GLCall → Bool
  | .genTextures _ => true
  | _ => false

/- ------------------------------------------------------------------ -/
/- Texture registry lookups: FindTextureID / FindTextureSlot          -/
/- ------------------------------------------------------------------ -/

/-- The scanning loop of `SceneManager::FindTextureID`: walk the registry
entries in order; on the first entry whose tag compares equal, return its
`ID`; if the scan exhausts, keep the initial `-1`. -/
def findTextureIDLoop : List TEXTURE_INFO → String → Int
  | [], _ => -1
  | e :: rest, tag =>
    if e.tag = tag then (e.ID : Int) else findTextureIDLoop rest tag

/-- `SceneManager::FindTextureID(tag)`: first-match linear scan for the
texture name, `-1` when no entry matches. -/
def FindTextureID (textureIDs : List TEXTURE_INFO) (tag : String) : Int :=
  findTextureIDLoop textureIDs tag

/-- The scanning loop of `SceneManager::FindTextureSlot`, carrying the
running `index` counter: on the first matching entry return the index;
if the scan exhausts, keep the initial `-1`. -/
def findTextureSlotLoop : List TEXTURE_INFO → String → Int → Int
  | [], _, _ => -1
  | e :: rest, tag, index =>
    if e.tag = tag then index else findTextureSlotLoop rest tag (index + 1)

/-- `SceneManager::FindTextureSlot(tag)`: first-match linear scan for the
bound texture-unit index (= position in the registry), `-1` when no entry
matches. -/
def FindTextureSlot (textureIDs : List TEXTURE_INFO) (tag : String) : Int :=
  findTextureSlotLoop textureIDs tag 0

/- ------------------------------------------------------------------ -/
/- Material registry lookup: FindMaterial                             -/
/- ------------------------------------------------------------------ -/

/-- The scanning loop of `SceneManager::FindMaterial`: on the first entry
whose tag matches, copy its `diffuseColor`, `specularColor` and
`shininess` into the caller-supplied output `material` (the `tag` field
of the output is not written); if the scan exhausts, the output is left
untouched. -/
def findMaterialLoop :
    List OBJECT_MATERIAL → String → OBJECT_MATERIAL → OBJECT_MATERIAL
  | [], _, material => material
  | e :: rest, tag, material =>
    if e.tag = tag then
      { material with
        diffuseColor := e.diffuseColor
        specularColor := e.specularColor
        shininess := e.shininess }
    else findMaterialLoop rest tag material

/-- `SceneManager::FindMaterial(tag, material)`: returns `false`
immediately when the registry is empty; otherwise runs the first-match
scan and then returns `true` unconditionally — also when the scan matched
no entry (the returned flag is the C++ return value, the second component
is the final value of the by-reference output parameter, whose initial
value `material` models the caller's — possibly uninitialized — struct). -/
def FindMaterial (objectMaterials : List OBJECT_MATERIAL) (tag : String)
    (material : OBJECT_MATERIAL) : Bool × OBJECT_MATERIAL :=
  if objectMaterials.length = 0 then
    (false, material)
  else
    (true, findMaterialLoop objectMaterials tag material)

/- ------------------------------------------------------------------ -/
/- Shader uniform store and scene state                               -/
/- ------------------------------------------------------------------ -/

/-- Model matrices are 4x4 real matrices (`glm::mat4`; float entries are
modelled by reals, standard for stating the algebraic composition
properties of the transform composer). -/
abbrev Mat4 := Matrix (Fin 4) (Fin 4) ℝ

/-- A 3-component real vector, used for the transform composer inputs
(`glm::vec3` scale / position / rotation axis). -/
structure Vec3R where
  x : ℝ
  y : ℝ
  z : ℝ

/-- The uniform store behind the external shader-parameter interface, as
far as the SceneManager writes it: the named uniforms `model`,
`objectColor`, `bUseTexture`, `objectTexture`, `UVscale`,
`material.diffuseColor`, `material.specularColor`, `material.shininess`
and the lighting-enable flag.  The individual light-source uniforms set
by `SetupSceneLights` are summarized by `lightsConfigured` (no claim
concerns their values). -/
structure ShaderUniforms where
  model : Mat4
  objectColor : Vec4
  bUseTexture : Bool
  objectTexture : Int
  uvScale : ℚ × ℚ
  matDiffuseColor : Vec3
  matSpecularColor : Vec3
  matShininess : ℚ
  bUseLighting : Bool
  lightsConfigured : Bool

/-- The SceneManager state: the shader-manager pointer
(`none` models `NULL`), the texture registry
(`m_textureIDs[0 .. m_loadedTextures)`), the material registry
`m_objectMaterials`, the supply counter for fresh OpenGL texture names,
and the list of primitive meshes loaded into the shared mesh cache. -/
structure SceneState where
  shader : Option ShaderUniforms
  textureIDs : List TEXTURE_INFO
  objectMaterials : List OBJECT_MATERIAL
  nextTexName : Nat
  meshes : List String

/- ------------------------------------------------------------------ -/
/- CreateGLTexture / BindGLTextures / DestroyGLTextures               -/
/- ------------------------------------------------------------------ -/

/-- `SceneManager::CreateGLTexture(filename, tag)`.  The decoder oracle
`env` models `stbi_load`.  On decode failure: log and return `false`, no
GL interaction.  On success: generate a texture name, bind it, set four
texture parameters, then check the channel count — for 3 or 4 channels
upload the image (`glTexImage2D`), generate mipmaps, unbind, and append a
registry entry; for any other channel count return `false` right away
(note: after the texture name was already generated and configured).
Returns the success flag, the new state, and the GL trace. -/
def CreateGLTexture (env : String → Option Image) (filename : String)
    (tag : String) (s : SceneState) : Bool × SceneState × List GLCall :=
  match env filename with
  | none => (false, s, [])
  | some image =>
    let textureID := s.nextTexName
    let s1 : SceneState := { s with nextTexName := s.nextTexName + 1 }
    let calls0 : List GLCall :=
      [.genTextures textureID, .bindTexture2D textureID,
       .texParameteri, .texParameteri, .texParameteri, .texParameteri]
    if image.channels = 3 ∨ image.channels = 4 then
      (true,
       { s1 with textureIDs := s1.textureIDs ++ [⟨textureID, tag⟩] },
       calls0 ++ [.texImage2D image.channels, .generateMipmap,
                  .bindTexture2D 0])
    else
      (false, s1, calls0)

/-- The loop body of `SceneManager::BindGLTextures`, carrying the running
unit index: `glActiveTexture(GL_TEXTURE0 + i)` then
`glBindTexture(GL_TEXTURE_2D, m_textureIDs[i].ID)` for each entry. -/
def bindGLTexturesLoop : List TEXTURE_INFO → Nat → List GLCall
  | [], _ => []
  | e :: rest, i =>
    .activeTexture i :: .bindTexture2D e.ID :: bindGLTexturesLoop rest (i + 1)

/-- `SceneManager::BindGLTextures()`: bind every registered texture to the
texture unit given by its registry index.  Pure GL effect, so the result
is the trace. -/
def BindGLTextures (s : SceneState) : List GLCall :=
  bindGLTexturesLoop s.textureIDs 0

/-- The loop body of `SceneManager::DestroyGLTextures`: for each registry
entry the source executes `glGenTextures(1, &m_textureIDs[i].ID)` — it
generates a fresh texture name and stores it over the entry's `ID`
(it does not call `glDeleteTextures`).  `next` supplies the fresh
names. -/
def destroyGLTexturesLoop :
    List TEXTURE_INFO → Nat → List TEXTURE_INFO × List GLCall
  | [], _ => ([], [])
  | e :: rest, next =>
    let r := destroyGLTexturesLoop rest (next + 1)
    ({ e with ID := next } :: r.1, GLCall.genTextures next :: r.2)

/-- `SceneManager::DestroyGLTextures()`: the bulk shutdown routine over
the texture registry.  Returns the new state and the GL trace. -/
def DestroyGLTextures (s : SceneState) : SceneState × List GLCall :=
  let r := destroyGLTexturesLoop s.textureIDs s.nextTexName
  ({ s with textureIDs := r.1, nextTexName := s.nextTexName + r.1.length },
   r.2)

/- ------------------------------------------------------------------ -/
/- Shader state binder                                                -/
/- ------------------------------------------------------------------ -/

/-- `SceneManager::SetShaderColor(r,g,b,a)`: guarded by a NULL check on
the shader manager; when present, force texture mode off and upload the
flat color. -/
def SetShaderColor (s : SceneState) (r g b a : ℚ) : SceneState :=
  match s.shader with
  | none => s
  | some u =>
    let u2 := { u with bUseTexture := false, objectColor := ⟨r, g, b, a⟩ }
    { s with shader := some u2 }

/-- `SceneManager::SetShaderTexture(textureTag)`: guarded by a NULL check;
when present, set `bUseTexture` to true, resolve the tag through
`FindTextureSlot`, and upload the result (possibly `-1`) as the
`objectTexture` sampler uniform. -/
def SetShaderTexture (s : SceneState) (textureTag : String) : SceneState :=
  match s.shader with
  | none => s
  | some u =>
    let textureID := FindTextureSlot s.textureIDs textureTag
    let u2 := { u with bUseTexture := true, objectTexture := textureID }
    { s with shader := some u2 }

/-- `SceneManager::SetTextureUVScale(u, v)`: guarded by a NULL check; when
present, upload the 2-component `UVscale` uniform. -/
def SetTextureUVScale (s : SceneState) (u v : ℚ) : SceneState :=
  match s.shader with
  | none => s
  | some sh =>
    let u2 := { sh with uvScale := (u, v) }
    { s with shader := some u2 }

/-- `SceneManager::SetShaderMaterial(materialTag)`: when the material
registry is non-empty, run `FindMaterial` on a caller-local
`OBJECT_MATERIAL` (uninitialized in the source, modelled by the explicit
argument `garbage`) and, if it reported success, upload the three
material uniforms through the shader manager — without any NULL check on
the pointer.  A `none` result models the NULL-pointer dereference that
happens on that path when the shader manager is absent. -/
def SetShaderMaterial (s : SceneState) (materialTag : String)
    (garbage : OBJECT_MATERIAL) : Option SceneState :=
  if s.objectMaterials.length > 0 then
    let r := FindMaterial s.objectMaterials materialTag garbage
    if r.1 = true then
      match s.shader with
      | none => none
      | some u =>
        let u2 := { u with
                    matDiffuseColor := r.2.diffuseColor
                    matSpecularColor := r.2.specularColor
                    matShininess := r.2.shininess }
        some { s with shader := some u2 }
    else
      some s
  else
    some s

/- ------------------------------------------------------------------ -/
/- Transform composer: SetTransformations                             -/
/- ------------------------------------------------------------------ -/

/-- `glm::radians(degrees)`: degrees to radians. -/
noncomputable def glmRadians (degrees : ℝ) : ℝ :=
  degrees * (Real.pi / 180)

/-- `glm::normalize(v)`: divide by the Euclidean length. -/
noncomputable def glmNormalize (v : Vec3R) : Vec3R :=
  let len := Real.sqrt (v.x * v.x + v.y * v.y + v.z * v.z)
  ⟨v.x / len, v.y / len, v.z / len⟩

/-- `glm::rotate(angle, v)` (GLM's axis-angle rotation matrix): the
Rodrigues-formula rotation about the normalized axis, embedded in a 4x4
homogeneous matrix.  Entries transcribed from GLM's
`rotate(mat<4,4> const m, T angle, vec<3> const v)` applied to the
identity, converted from GLM's column-major `Result[col][row]` layout to
row-column indexing. -/
noncomputable def glmRotate (angle : ℝ) (v : Vec3R) : Mat4 :=
  let c := Real.cos angle
  let s := Real.sin angle
  let a := glmNormalize v
  let tx := (1 - c) * a.x
  let ty := (1 - c) * a.y
  let tz := (1 - c) * a.z
  !![c + tx * a.x, ty * a.x - s * a.z, tz * a.x + s * a.y, 0;
     tx * a.y + s * a.z, c + ty * a.y, tz * a.y - s * a.x, 0;
     tx * a.z - s * a.y, ty * a.z + s * a.x, c + tz * a.z, 0;
     0, 0, 0, 1]

/-- `glm::scale(v)`: the diagonal scale matrix in homogeneous
coordinates. -/
def glmScale (v : Vec3R) : Mat4 :=
  !![v.x, 0, 0, 0;
     0, v.y, 0, 0;
     0, 0, v.z, 0;
     0, 0, 0, 1]

/-- `glm::translate(v)`: the homogeneous translation matrix (translation
in the last column, acting on column vectors). -/
def glmTranslate (v : Vec3R) : Mat4 :=
  !![1, 0, 0, v.x;
     0, 1, 0, v.y;
     0, 0, 1, v.z;
     0, 0, 0, 1]

/-- `SceneManager::SetTransformations(scaleXYZ, X°, Y°, Z°, positionXYZ)`:
build the scale matrix, the three per-axis rotation matrices (via
`glm::rotate` about the unit axes), the translation matrix, combine them
as `translation * rotationZ * rotationY * rotationX * scale`, and — when
the shader manager is present — upload the result as the `model`
uniform. -/
noncomputable def SetTransformations (s : SceneState) (scaleXYZ : Vec3R)
    (XrotationDegrees YrotationDegrees ZrotationDegrees : ℝ)
    (positionXYZ : Vec3R) : SceneState :=
  let scale := glmScale scaleXYZ
  let rotationX := glmRotate (glmRadians XrotationDegrees) ⟨1, 0, 0⟩
  let rotationY := glmRotate (glmRadians YrotationDegrees) ⟨0, 1, 0⟩
  let rotationZ := glmRotate (glmRadians ZrotationDegrees) ⟨0, 0, 1⟩
  let translation := glmTranslate positionXYZ
  let modelView := translation * rotationZ * rotationY * rotationX * scale
  match s.shader with
  | none => s
  | some u =>
    let u2 := { u with model := modelView }
    { s with shader := some u2 }

/- Specification-side matrices for the transform-composition claim.
They are written from the spec's words ("T · Rz · Ry · Rx · S,
translation outermost, then Z-then-Y-then-X rotation, innermost scale",
with the textbook per-axis rotation matrices), independently of
`glm::rotate`, and compared against the embedded code. -/

/-- Textbook rotation about the X axis by `t` radians (spec side). -/
noncomputable def rotationXStd (t : ℝ) : Mat4 :=
  !![1, 0, 0, 0;
     0, Real.cos t, -Real.sin t, 0;
     0, Real.sin t, Real.cos t, 0;
     0, 0, 0, 1]

/-- Textbook rotation about the Y axis by `t` radians (spec side). -/
noncomputable def rotationYStd (t : ℝ) : Mat4 :=
  !![Real.cos t, 0, Real.sin t, 0;
     0, 1, 0, 0;
     -Real.sin t, 0, Real.cos t, 0;
     0, 0, 0, 1]

/-- Textbook rotation about the Z axis by `t` radians (spec side). -/
noncomputable def rotationZStd (t : ℝ) : Mat4 :=
  !![Real.cos t, -Real.sin t, 0, 0;
     Real.sin t, Real.cos t, 0, 0;
     0, 0, 1, 0;
     0, 0, 0, 1]

/-- Spec-side scale matrix. -/
def scaleStd (v : Vec3R) : Mat4 :=
  !![v.x, 0, 0, 0;
     0, v.y, 0, 0;
     0, 0, v.z, 0;
     0, 0, 0, 1]

/-- Spec-side translation matrix (translation outermost ⇒ last column). -/
def translateStd (v : Vec3R) : Mat4 :=
  !![1, 0, 0, v.x;
     0, 1, 0, v.y;
     0, 0, 1, v.z;
     0, 0, 0, 1]

/-- Modelled from the spec: `Compose(scale, rotX°, rotY°, rotZ°,
translation)` as the spec describes it — `T · Rz · Ry · Rx · S` with the
textbook per-axis rotations at the degree inputs converted to radians. -/
noncomputable def composeTRS (scaleXYZ : Vec3R) (xdeg ydeg zdeg : ℝ)
    (positionXYZ : Vec3R) : Mat4 :=
  translateStd positionXYZ *
    rotationZStd (glmRadians zdeg) *
    rotationYStd (glmRadians ydeg) *
    rotationXStd (glmRadians xdeg) *
    scaleStd scaleXYZ

/- ------------------------------------------------------------------ -/
/- Scene content: materials, textures, lights, PrepareScene           -/
/- ------------------------------------------------------------------ -/

/-- The `gravel` material defined in `DefineObjectMaterials`. -/
def gravelMaterial : OBJECT_MATERIAL :=
  { diffuseColor := ⟨0.502, 0.502, 0.502⟩
    specularColor := ⟨0.502, 0.502, 0.502⟩
    shininess := 20
    tag := "gravel" }

/-- The `metal` material defined in `DefineObjectMaterials`. -/
def metalMaterial : OBJECT_MATERIAL :=
  { diffuseColor := ⟨0, 0, 0⟩
    specularColor := ⟨0.78, 0.78, 0.78⟩
    shininess := 85
    tag := "metal" }

/-- The `wood` material defined in `DefineObjectMaterials`. -/
def woodMaterial : OBJECT_MATERIAL :=
  { diffuseColor := ⟨0.3, 0.25, 0.24⟩
    specularColor := ⟨0.66, 0.26, 0.18⟩
    shininess := 80
    tag := "wood" }

/-- The `porcelain` material defined in `DefineObjectMaterials`. -/
def porcelainMaterial : OBJECT_MATERIAL :=
  { diffuseColor := ⟨0.96, 0.96, 0.96⟩
    specularColor := ⟨0.78, 0.78, 0.78⟩
    shininess := 80
    tag := "porcelain" }

/-- The `glass` material defined in `DefineObjectMaterials`. -/
def glassMaterial : OBJECT_MATERIAL :=
  { diffuseColor := ⟨1, 1, 1⟩
    specularColor := ⟨0.21, 0.21, 0.21⟩
    shininess := 95
    tag := "glass" }

/-- `SceneManager::DefineObjectMaterials()`: push the five scene material
presets onto `m_objectMaterials`, in source order, with no idempotence or
uniqueness check. -/
def DefineObjectMaterials (s : SceneState) : SceneState :=
  { s with objectMaterials :=
      s.objectMaterials ++
        [gravelMaterial, metalMaterial, woodMaterial,
         porcelainMaterial, glassMaterial] }

/-- `SceneManager::SetupSceneLights()`: writes the fixed directional and
point light uniforms and sets `bUseLighting` to true, all through
unguarded `m_pShaderManager->...` calls (so a NULL shader manager is a
dereference, modelled by `none`).  The individual light uniform values
are summarized by the `lightsConfigured` flag. -/
def SetupSceneLights (s : SceneState) : Option SceneState :=
  match s.shader with
  | none => none
  | some u =>
    let u2 := { u with bUseLighting := true, lightsConfigured := true }
    some { s with shader := some u2 }

/-- `SceneManager::LoadSceneTextures()`: the five `CreateGLTexture` calls
of the source, in order, each return value assigned to `bReturn` and
ignored, followed by `BindGLTextures()`. -/
def LoadSceneTextures (env : String → Option Image) (s : SceneState) :
    SceneState × List GLCall :=
  let r1 := CreateGLTexture env "textures/Floor.jpg" "floor" s
  let r2 := CreateGLTexture env "textures/Leg.jpg" "leg" r1.2.1
  let r3 := CreateGLTexture env "textures/Tabletop.jpg" "tabletop" r2.2.1
  let r4 := CreateGLTexture env "textures/Plate.jpg" "plate" r3.2.1
  let r5 := CreateGLTexture env "textures/Mug.jpg" "mug" r4.2.1
  (r5.2.1,
   r1.2.2 ++ r2.2.2 ++ r3.2.2 ++ r4.2.2 ++ r5.2.2 ++ BindGLTextures r5.2.1)

/-- The five primitive meshes loaded by `PrepareScene`. -/
def sceneMeshes : List String :=
  ["plane", "box", "taperedCylinder", "cylinder", "torus"]

/-- `SceneManager::PrepareScene()`: `LoadSceneTextures`, then
`DefineObjectMaterials`, then `SetupSceneLights`, then the five mesh
loads — with no guard against being invoked more than once. -/
def PrepareScene (env : String → Option Image) (s : SceneState) :
    Option (SceneState × List GLCall) :=
  let r := LoadSceneTextures env s
  let s2 := DefineObjectMaterials r.1
  match SetupSceneLights s2 with
  | none => none
  | some s3 => some ({ s3 with meshes := s3.meshes ++ sceneMeshes }, r.2)

/- ------------------------------------------------------------------ -/
/- Concrete states and decoder oracles used to instantiate theorems   -/
/- ------------------------------------------------------------------ -/

/-- A concrete uniform store: the value of every uniform before the
SceneManager writes anything (the particular values are irrelevant; they
stand in for whatever the shader program starts with). -/
noncomputable def initialUniforms : ShaderUniforms :=
  { model := 1
    objectColor := ⟨0, 0, 0, 1⟩
    bUseTexture := false
    objectTexture := 0
    uvScale := (1, 1)
    matDiffuseColor := ⟨0, 0, 0⟩
    matSpecularColor := ⟨0, 0, 0⟩
    matShininess := 0
    bUseLighting := false
    lightsConfigured := false }

/-- A freshly constructed SceneManager with a (non-NULL) shader manager:
both registries empty, no texture names handed out yet. -/
noncomputable def emptyScene : SceneState :=
  { shader := some initialUniforms
    textureIDs := []
    objectMaterials := []
    nextTexName := 1
    meshes := [] }

/-- A SceneManager constructed with a NULL shader manager and one defined
material. -/
def nullShaderScene : SceneState :=
  { shader := none
    textureIDs := []
    objectMaterials := [gravelMaterial]
    nextTexName := 1
    meshes := [] }

/-- A decoder oracle on which every file decodes to a 4x4 two-channel
(gray + alpha) image — the unsupported-format case. -/
def envTwoChannel : String → Option Image :=
  fun _ => some ⟨4, 4, 2⟩

/-- A decoder oracle on which every file decodes to a 2x2 three-channel
RGB image — the supported case. -/
def envRGB : String → Option Image :=
  fun _ => some ⟨2, 2, 3⟩

/- ------------------------------------------------------------------ -/
/- Lemmas about the registry scans                                    -/
/- ------------------------------------------------------------------ -/

theorem findTextureIDLoop_of_absent {l : List TEXTURE_INFO} {tag : String}
    (h : ∀ e ∈ l, e.tag ≠ tag) : findTextureIDLoop l tag = -1 := by
  induction l with
  | nil => rfl
  | cons e rest ih =>
    have he : e.tag ≠ tag := h e (List.mem_cons_self e rest)
    simp only [findTextureIDLoop, if_neg he]
    exact ih fun x hx => h x (List.mem_cons_of_mem e hx)

theorem findTextureSlotLoop_of_absent {l : List TEXTURE_INFO} {tag : String}
    (h : ∀ e ∈ l, e.tag ≠ tag) :
    ∀ k : Int, findTextureSlotLoop l tag k = -1 := by
  induction l with
  | nil => intro k; rfl
  | cons e rest ih =>
    intro k
    have he : e.tag ≠ tag := h e (List.mem_cons_self e rest)
    simp only [findTextureSlotLoop, if_neg he]
    exact ih (fun x hx => h x (List.mem_cons_of_mem e hx)) (k + 1)

theorem findTextureIDLoop_first_match {l1 l2 : List TEXTURE_INFO}
    {e : TEXTURE_INFO} {tag : String}
    (h1 : ∀ x ∈ l1, x.tag ≠ tag) (he : e.tag = tag) :
    findTextureIDLoop (l1 ++ e :: l2) tag = (e.ID : Int) := by
  induction l1 with
  | nil => simp [findTextureIDLoop, if_pos he]
  | cons x rest ih =>
    have hx : x.tag ≠ tag := h1 x (List.mem_cons_self x rest)
    simp only [List.cons_append, findTextureIDLoop, if_neg hx, List.append_eq]
    exact ih fun y hy => h1 y (List.mem_cons_of_mem x hy)

theorem findTextureSlotLoop_first_match {l1 l2 : List TEXTURE_INFO}
    {e : TEXTURE_INFO} {tag : String}
    (h1 : ∀ x ∈ l1, x.tag ≠ tag) (he : e.tag = tag) :
    ∀ k : Int, findTextureSlotLoop (l1 ++ e :: l2) tag k = k + l1.length := by
  induction l1 with
  | nil =>
    intro k
    simp [findTextureSlotLoop, if_pos he]
  | cons x rest ih =>
    intro k
    have hx : x.tag ≠ tag := h1 x (List.mem_cons_self x rest)
    simp only [List.cons_append, findTextureSlotLoop, if_neg hx, List.append_eq]
    rw [ih (fun y hy => h1 y (List.mem_cons_of_mem x hy)) (k + 1)]
    simp [List.length_cons]
    ring

/-- A successful texture load fully described: for a decodable image with
3 or 4 channels, `CreateGLTexture` returns `true`, appends one registry
entry carrying the fresh texture name, bumps the name supply, and issues
the generate/bind/parameter/upload/mipmap/unbind GL sequence. -/
theorem CreateGLTexture_success (env : String → Option Image)
    (filename tag : String) (s : SceneState) (img : Image)
    (henv : env filename = some img)
    (hch : img.channels = 3 ∨ img.channels = 4) :
    CreateGLTexture env filename tag s =
      (true,
       { s with
         nextTexName := s.nextTexName + 1
         textureIDs := s.textureIDs ++ [⟨s.nextTexName, tag⟩] },
       [.genTextures s.nextTexName, .bindTexture2D s.nextTexName,
        .texParameteri, .texParameteri, .texParameteri, .texParameteri,
        .texImage2D img.channels, .generateMipmap, .bindTexture2D 0]) := by
  unfold CreateGLTexture
  rw [henv]
  simp [hch]

/- ------------------------------------------------------------------ -/
/- Claim C1                                                           -/
/- ------------------------------------------------------------------ -/

/-- Claim C1 (code bug): on a non-empty material registry — here the
registry holding only the `gravel` preset — `FindMaterial` applied to the
absent tag "missing" reports success (`true`) while leaving the output
material exactly as the caller passed it in, for every such caller
value.  This contradicts the claim (and the spec, which calls this path a
defect): lookup of an absent tag on a non-empty registry must report
not-found. -/
theorem FindMaterial_reports_success_on_absent_tag :
    ∀ m0 : OBJECT_MATERIAL,
      FindMaterial [gravelMaterial] "missing" m0 = (true, m0) := by
  intro m0
  simp [FindMaterial, findMaterialLoop, gravelMaterial]

/- ------------------------------------------------------------------ -/
/- Claim C7                                                           -/
/- ------------------------------------------------------------------ -/

/-- Claim C7: for every registry state (including the empty one) and
every tag stored in no entry, both `FindTextureID` and `FindTextureSlot`
return `-1`; and for a tag that occurs in several entries, both return
the value determined by the first (lowest-index) matching entry — its
`ID` and its index, regardless of the later matches. -/
theorem FindTexture_absent_and_first_match :
    (∀ (l : List TEXTURE_INFO) (tag : String),
       (∀ e ∈ l, e.tag ≠ tag) →
       FindTextureID l tag = -1 ∧ FindTextureSlot l tag = -1) ∧
    (∀ (l1 l2 : List TEXTURE_INFO) (e : TEXTURE_INFO) (tag : String),
       (∀ x ∈ l1, x.tag ≠ tag) → e.tag = tag →
       FindTextureID (l1 ++ e :: l2) tag = (e.ID : Int) ∧
       FindTextureSlot (l1 ++ e :: l2) tag = (l1.length : Int)) := by
  constructor
  · intro l tag h
    exact ⟨findTextureIDLoop_of_absent h, findTextureSlotLoop_of_absent h 0⟩
  · intro l1 l2 e tag h1 he
    refine ⟨findTextureIDLoop_first_match h1 he, ?_⟩
    rw [FindTextureSlot, findTextureSlotLoop_first_match h1 he 0]
    ring

/-- Witness for C7, on a registry in which the tag "leg" occurs twice:
the absent tag "mug" yields `-1` from both lookups, and both lookups on
"leg" return the ID (8) and index (1) of the first of the two matching
entries, not the later one. -/
theorem FindTexture_absent_and_first_match_witness :
    (FindTextureID [⟨7, "floor"⟩, ⟨8, "leg"⟩, ⟨9, "leg"⟩] "mug" = -1 ∧
     FindTextureSlot [⟨7, "floor"⟩, ⟨8, "leg"⟩, ⟨9, "leg"⟩] "mug" = -1) ∧
    (FindTextureID ([⟨7, "floor"⟩] ++ ⟨8, "leg"⟩ :: [⟨9, "leg"⟩]) "leg" = 8 ∧
     FindTextureSlot ([⟨7, "floor"⟩] ++ ⟨8, "leg"⟩ :: [⟨9, "leg"⟩]) "leg" = 1) := by
  constructor
  · exact FindTexture_absent_and_first_match.1
      [⟨7, "floor"⟩, ⟨8, "leg"⟩, ⟨9, "leg"⟩] "mug" (by decide)
  · exact FindTexture_absent_and_first_match.2
      [⟨7, "floor"⟩] [⟨9, "leg"⟩] ⟨8, "leg"⟩ "leg" (by decide) rfl

/- ------------------------------------------------------------------ -/
/- Claim C2                                                           -/
/- ------------------------------------------------------------------ -/

/-- Claim C2: whenever the material lookup fails (`FindMaterial` returns
`false` — which in this code happens exactly when the registry is
empty), `SetShaderMaterial` performs no uniform write whatsoever: the
whole scene state, in particular every previously uploaded
`material.diffuseColor` / `material.specularColor` /
`material.shininess` value, is returned unchanged. -/
theorem SetShaderMaterial_failed_lookup_uploads_nothing :
    ∀ (s : SceneState) (tag : String) (garbage : OBJECT_MATERIAL),
      (FindMaterial s.objectMaterials tag garbage).1 = false →
      SetShaderMaterial s tag garbage = some s := by
  intro s tag g h
  unfold FindMaterial at h
  by_cases hlen : s.objectMaterials.length = 0
  · unfold SetShaderMaterial
    simp [hlen]
  · rw [if_neg hlen] at h
    simp at h

/-- Witness for C2: on the freshly constructed scene (empty material
registry, shader manager present) the lookup of "metal" fails and
`SetShaderMaterial` leaves the state — hence every material uniform —
unchanged. -/
theorem SetShaderMaterial_failed_lookup_uploads_nothing_witness :
    (FindMaterial emptyScene.objectMaterials "metal" gravelMaterial).1
        = false ∧
    SetShaderMaterial emptyScene "metal" gravelMaterial = some emptyScene :=
  ⟨rfl,
   SetShaderMaterial_failed_lookup_uploads_nothing emptyScene "metal"
     gravelMaterial rfl⟩

/- ------------------------------------------------------------------ -/
/- Claim C9                                                           -/
/- ------------------------------------------------------------------ -/

/-- Claim C9: with the shader manager present, `SetShaderTexture` on a
tag the texture registry cannot resolve still sets the `bUseTexture`
uniform to true and uploads the not-found sentinel `-1` as the
`objectTexture` sampler uniform — no fallback to flat color, no other
state change. -/
theorem SetShaderTexture_unresolved_uploads_minus_one :
    ∀ (s : SceneState) (u : ShaderUniforms) (tag : String),
      s.shader = some u →
      FindTextureSlot s.textureIDs tag = -1 →
      SetShaderTexture s tag =
        { s with
          shader := some { u with bUseTexture := true, objectTexture := -1 } } := by
  intro s u tag hs hf
  unfold SetShaderTexture
  rw [hs, hf]

/-- Witness for C9: on the freshly constructed scene (empty texture
registry) the tag "brick" is unresolved, and `SetShaderTexture` enables
texture mode and uploads `-1`. -/
theorem SetShaderTexture_unresolved_uploads_minus_one_witness :
    emptyScene.shader = some initialUniforms ∧
    FindTextureSlot emptyScene.textureIDs "brick" = -1 ∧
    SetShaderTexture emptyScene "brick" =
      { emptyScene with
        shader := some { initialUniforms with
                         bUseTexture := true, objectTexture := -1 } } :=
  ⟨rfl, rfl,
   SetShaderTexture_unresolved_uploads_minus_one emptyScene initialUniforms
     "brick" rfl rfl⟩

/- ------------------------------------------------------------------ -/
/- Claim C10                                                          -/
/- ------------------------------------------------------------------ -/

/-- Claim C10: with a NULL shader-manager pointer, `SetTransformations`,
`SetShaderColor`, `SetShaderTexture` and `SetTextureUVScale` are guarded
no-ops (the state is returned untouched), while `SetShaderMaterial` has
no such guard: as soon as the material registry is non-empty and the
lookup reports success, it dereferences the NULL pointer to upload the
material uniforms (modelled by the `none` result). -/
theorem SetShaderMaterial_lacks_null_guard :
    ∀ (s : SceneState) (scaleXYZ : Vec3R) (xr yr zr : ℝ) (pos : Vec3R)
      (r g b a uu vv : ℚ) (ttag mtag : String) (garbage : OBJECT_MATERIAL),
      s.shader = none →
      SetTransformations s scaleXYZ xr yr zr pos = s ∧
      SetShaderColor s r g b a = s ∧
      SetShaderTexture s ttag = s ∧
      SetTextureUVScale s uu vv = s ∧
      (s.objectMaterials.length > 0 →
       (FindMaterial s.objectMaterials mtag garbage).1 = true →
       SetShaderMaterial s mtag garbage = none) := by
  intro s scaleXYZ xr yr zr pos r g b a uu vv ttag mtag garbage hnull
  refine ⟨?_, ?_, ?_, ?_, ?_⟩
  · unfold SetTransformations
    rw [hnull]
  · unfold SetShaderColor
    rw [hnull]
  · unfold SetShaderTexture
    rw [hnull]
  · unfold SetTextureUVScale
    rw [hnull]
  · intro hlen hfound
    unfold SetShaderMaterial
    rw [if_pos hlen, if_pos hfound, hnull]

/-- Witness for C10, on a scene constructed with a NULL shader manager
and the `gravel` material defined: the four guarded setters return the
state unchanged, and `SetShaderMaterial` on the (successfully resolved)
tag "gravel" reaches the NULL dereference. -/
theorem SetShaderMaterial_lacks_null_guard_witness :
    nullShaderScene.shader = none ∧
    SetTransformations nullShaderScene ⟨1, 1, 1⟩ 0 0 0 ⟨0, 0, 0⟩
        = nullShaderScene ∧
    SetShaderColor nullShaderScene 1 0 0 1 = nullShaderScene ∧
    SetShaderTexture nullShaderScene "floor" = nullShaderScene ∧
    SetTextureUVScale nullShaderScene 1 1 = nullShaderScene ∧
    SetShaderMaterial nullShaderScene "gravel" gravelMaterial = none := by
  have h := SetShaderMaterial_lacks_null_guard nullShaderScene
    ⟨1, 1, 1⟩ 0 0 0 ⟨0, 0, 0⟩ 1 0 0 1 1 1 "floor" "gravel"
    gravelMaterial rfl
  exact ⟨rfl, h.1, h.2.1, h.2.2.1, h.2.2.2.1,
    h.2.2.2.2 (by decide) rfl⟩

/- ------------------------------------------------------------------ -/
/- Claim C5                                                           -/
/- ------------------------------------------------------------------ -/

/-- Claim C5 (code bug): for every scene state, the GL trace of
`DestroyGLTextures` contains one call per registered entry, every one of
them a `glGenTextures` call and none of them a `glDeleteTextures` call —
the shutdown routine allocates fresh texture names instead of releasing
the registered textures, so no registered GPU texture object is ever
destroyed. -/
theorem DestroyGLTextures_releases_no_texture :
    ∀ s : SceneState,
      (DestroyGLTextures s).2.length = s.textureIDs.length ∧
      ∀ c ∈ (DestroyGLTextures s).2,
        c.isGen = true ∧ c.isDelete = false := by
  intro s
  unfold DestroyGLTextures
  suffices h : ∀ (l : List TEXTURE_INFO) (next : Nat),
      (destroyGLTexturesLoop l next).2.length = l.length ∧
      ∀ c ∈ (destroyGLTexturesLoop l next).2,
        c.isGen = true ∧ c.isDelete = false by
    exact h s.textureIDs s.nextTexName
  intro l
  induction l with
  | nil => intro next; exact ⟨rfl, by intro c hc; cases hc⟩
  | cons e rest ih =>
    intro next
    refine ⟨?_, ?_⟩
    · simp only [destroyGLTexturesLoop, List.length_cons]
      rw [(ih (next + 1)).1]
    · intro c hc
      simp only [destroyGLTexturesLoop, List.mem_cons] at hc
      rcases hc with hc | hc
      · subst hc; exact ⟨rfl, rfl⟩
      · exact (ih (next + 1)).2 c hc

/- ------------------------------------------------------------------ -/
/- Claim C3                                                           -/
/- ------------------------------------------------------------------ -/

/-- Counterexample for C3 as stated: loading a 4x4 two-channel image does
return failure and does leave the registry unchanged, but it is false
that no GPU texture resource is created — the GL trace shows the
`glGenTextures` call (texture name 1) issued before the channel check,
and no `glDeleteTextures` ever follows on the failure path. -/
theorem CreateGLTexture_two_channel_generates_GPU_texture :
    (CreateGLTexture envTwoChannel "textures/Gray.jpg" "gray"
        emptyScene).1 = false ∧
    (CreateGLTexture envTwoChannel "textures/Gray.jpg" "gray"
        emptyScene).2.1.textureIDs = [] ∧
    GLCall.genTextures 1 ∈
      (CreateGLTexture envTwoChannel "textures/Gray.jpg" "gray"
        emptyScene).2.2 := by
  refine ⟨rfl, rfl, ?_⟩
  have h : (CreateGLTexture envTwoChannel "textures/Gray.jpg" "gray"
      emptyScene).2.2 =
      [.genTextures 1, .bindTexture2D 1, .texParameteri, .texParameteri,
       .texParameteri, .texParameteri] := rfl
  rw [h]
  exact List.mem_cons_self _ _

/-- Claim C3 (amended): for every image whose decoded channel count is
outside {3,4}, `CreateGLTexture` returns failure and leaves the registry
unchanged — but a GPU texture object has already been generated,
bound and parameterized before the channel check, and is never deleted
(the GL trace is exactly the generate/bind/parameter prefix, with no
`glDeleteTextures`), so a GPU texture resource is created and leaked. -/
theorem CreateGLTexture_unsupported_channels :
    ∀ (env : String → Option Image) (filename tag : String)
      (s : SceneState) (img : Image),
      env filename = some img →
      ¬(img.channels = 3 ∨ img.channels = 4) →
      (CreateGLTexture env filename tag s).1 = false ∧
      (CreateGLTexture env filename tag s).2.1.textureIDs = s.textureIDs ∧
      (CreateGLTexture env filename tag s).2.2 =
        [.genTextures s.nextTexName, .bindTexture2D s.nextTexName,
         .texParameteri, .texParameteri, .texParameteri,
         .texParameteri] := by
  intro env filename tag s img henv hch
  unfold CreateGLTexture
  rw [henv]
  simp [hch]

/-- Witness for the amended C3: the two-channel decode on the fresh scene
fails, keeps the registry empty, and leaves behind the generated (never
deleted) texture object number 1. -/
theorem CreateGLTexture_unsupported_channels_witness :
    envTwoChannel "textures/Gray.jpg" = some ⟨4, 4, 2⟩ ∧
    ¬((Image.mk 4 4 2).channels = 3 ∨ (Image.mk 4 4 2).channels = 4) ∧
    (CreateGLTexture envTwoChannel "textures/Gray.jpg" "gray"
        emptyScene).1 = false ∧
    (CreateGLTexture envTwoChannel "textures/Gray.jpg" "gray"
        emptyScene).2.1.textureIDs = emptyScene.textureIDs ∧
    (CreateGLTexture envTwoChannel "textures/Gray.jpg" "gray"
        emptyScene).2.2 =
      [.genTextures 1, .bindTexture2D 1, .texParameteri, .texParameteri,
       .texParameteri, .texParameteri] := by
  have h := CreateGLTexture_unsupported_channels envTwoChannel
    "textures/Gray.jpg" "gray" emptyScene ⟨4, 4, 2⟩ rfl (by decide)
  exact ⟨rfl, by decide, h.1, h.2.1, h.2.2⟩

/- ------------------------------------------------------------------ -/
/- Claim C8                                                           -/
/- ------------------------------------------------------------------ -/

theorem bindGLTexturesLoop_get {l : List TEXTURE_INFO} :
    ∀ (k i : Nat) (e : TEXTURE_INFO), l.get? i = some e →
      (bindGLTexturesLoop l k).get? (2 * i) =
        some (.activeTexture (k + i)) ∧
      (bindGLTexturesLoop l k).get? (2 * i + 1) =
        some (.bindTexture2D e.ID) := by
  induction l with
  | nil =>
    intro k i e h
    cases h
  | cons x rest ih =>
    intro k i e h
    cases i with
    | zero =>
      rw [List.get?_cons_zero] at h
      cases h
      constructor
      · simp [bindGLTexturesLoop]
      · simp [bindGLTexturesLoop]
    | succ j =>
      rw [List.get?_cons_succ] at h
      have h2 : 2 * (j + 1) = 2 * j + 1 + 1 := by ring
      have h3 : 2 * (j + 1) + 1 = (2 * j + 1) + 1 + 1 := by ring
      have hk : k + (j + 1) = (k + 1) + j := by ring
      rw [h3, h2, hk]
      simp only [bindGLTexturesLoop, List.get?_cons_succ]
      exact ih (k + 1) j e h

/-- Claim C8: loading a valid 3- or 4-channel image under a fresh tag
makes `FindTextureSlot` on that tag return the entry's insertion index
(the registry size before the load); a second successful load under a
different fresh tag resolves to an index exactly one greater; and
`BindGLTextures` binds every registered texture to the texture unit equal
to its registry index (call `2*i` of the trace activates unit `i`, call
`2*i + 1` binds the `i`-th registered texture name). -/
theorem Load_fresh_tag_unit_index_and_binding :
    (∀ (env : String → Option Image) (f1 f2 t1 t2 : String)
       (s : SceneState) (img1 img2 : Image),
       env f1 = some img1 → (img1.channels = 3 ∨ img1.channels = 4) →
       env f2 = some img2 → (img2.channels = 3 ∨ img2.channels = 4) →
       (∀ e ∈ s.textureIDs, e.tag ≠ t1) →
       (∀ e ∈ s.textureIDs, e.tag ≠ t2) →
       t1 ≠ t2 →
       (CreateGLTexture env f1 t1 s).1 = true ∧
       FindTextureSlot (CreateGLTexture env f1 t1 s).2.1.textureIDs t1 =
         (s.textureIDs.length : Int) ∧
       (CreateGLTexture env f2 t2 (CreateGLTexture env f1 t1 s).2.1).1
           = true ∧
       FindTextureSlot
           (CreateGLTexture env f2 t2
             (CreateGLTexture env f1 t1 s).2.1).2.1.textureIDs t2 =
         (s.textureIDs.length : Int) + 1) ∧
    (∀ (s : SceneState) (i : Nat) (e : TEXTURE_INFO),
       s.textureIDs.get? i = some e →
       (BindGLTextures s).get? (2 * i) = some (.activeTexture i) ∧
       (BindGLTextures s).get? (2 * i + 1) =
         some (.bindTexture2D e.ID)) := by
  constructor
  · intro env f1 f2 t1 t2 s img1 img2 henv1 hch1 henv2 hch2 hfresh1
      hfresh2 hne
    rw [CreateGLTexture_success env f1 t1 s img1 henv1 hch1]
    have hfresh2' :
        ∀ e ∈ s.textureIDs ++ [TEXTURE_INFO.mk s.nextTexName t1],
          e.tag ≠ t2 := by
      intro e he
      rcases List.mem_append.1 he with he | he
      · exact hfresh2 e he
      · rcases List.mem_singleton.1 he with rfl
        exact hne
    refine ⟨rfl, ?_, ?_, ?_⟩
    · show FindTextureSlot
        (s.textureIDs ++ [TEXTURE_INFO.mk s.nextTexName t1]) t1 = _
      have : s.textureIDs ++ [TEXTURE_INFO.mk s.nextTexName t1] =
          s.textureIDs ++ TEXTURE_INFO.mk s.nextTexName t1 :: [] := rfl
      rw [this, FindTextureSlot,
        findTextureSlotLoop_first_match hfresh1 rfl 0]
      ring
    · rw [CreateGLTexture_success env f2 t2 _ img2 henv2 hch2]
    · rw [CreateGLTexture_success env f2 t2 _ img2 henv2 hch2]
      show FindTextureSlot
        ((s.textureIDs ++ [TEXTURE_INFO.mk s.nextTexName t1]) ++
          [TEXTURE_INFO.mk (s.nextTexName + 1) t2]) t2 = _
      have heq : (s.textureIDs ++ [TEXTURE_INFO.mk s.nextTexName t1]) ++
          [TEXTURE_INFO.mk (s.nextTexName + 1) t2] =
          (s.textureIDs ++ [TEXTURE_INFO.mk s.nextTexName t1]) ++
            TEXTURE_INFO.mk (s.nextTexName + 1) t2 :: [] := rfl
      rw [heq, FindTextureSlot,
        findTextureSlotLoop_first_match hfresh2' rfl 0]
      simp [List.length_append]
  · intro s i e h
    have := bindGLTexturesLoop_get 0 i e h
    simpa [BindGLTextures] using this

/-- Witness for C8: starting from the fresh scene, loading an RGB image
as "floor" makes `FindTextureSlot "floor"` return insertion index 0,
a second load as "leg" resolves to index 1, and the bind trace of the
resulting registry activates unit 1 and binds texture name 2 (the second
entry) at positions 2 and 3. -/
theorem Load_fresh_tag_unit_index_and_binding_witness :
    envRGB "textures/Floor.jpg" = some ⟨2, 2, 3⟩ ∧
    ("floor" : String) ≠ "leg" ∧
    (CreateGLTexture envRGB "textures/Floor.jpg" "floor" emptyScene).1
        = true ∧
    FindTextureSlot
        (CreateGLTexture envRGB "textures/Floor.jpg" "floor"
          emptyScene).2.1.textureIDs "floor" = 0 ∧
    FindTextureSlot
        (CreateGLTexture envRGB "textures/Leg.jpg" "leg"
          (CreateGLTexture envRGB "textures/Floor.jpg" "floor"
            emptyScene).2.1).2.1.textureIDs "leg" = 1 ∧
    (BindGLTextures
        (CreateGLTexture envRGB "textures/Leg.jpg" "leg"
          (CreateGLTexture envRGB "textures/Floor.jpg" "floor"
            emptyScene).2.1).2.1).get? 2 =
      some (GLCall.activeTexture 1) ∧
    (BindGLTextures
        (CreateGLTexture envRGB "textures/Leg.jpg" "leg"
          (CreateGLTexture envRGB "textures/Floor.jpg" "floor"
            emptyScene).2.1).2.1).get? 3 =
      some (GLCall.bindTexture2D 2) := by
  have hfresh : ∀ t : String, ∀ e ∈ emptyScene.textureIDs, e.tag ≠ t := by
    intro t e he
    simp [emptyScene] at he
  have h1 := Load_fresh_tag_unit_index_and_binding.1 envRGB
    "textures/Floor.jpg" "textures/Leg.jpg" "floor" "leg" emptyScene
    ⟨2, 2, 3⟩ ⟨2, 2, 3⟩ rfl (Or.inl rfl) rfl (Or.inl rfl)
    (hfresh "floor") (hfresh "leg") (by decide)
  have h2 := Load_fresh_tag_unit_index_and_binding.2
    (CreateGLTexture envRGB "textures/Leg.jpg" "leg"
      (CreateGLTexture envRGB "textures/Floor.jpg" "floor"
        emptyScene).2.1).2.1 1 ⟨2, "leg"⟩ rfl
  refine ⟨rfl, by decide, h1.1, ?_, ?_, ?_, ?_⟩
  · have := h1.2.1
    simpa [emptyScene] using this
  · have := h1.2.2.2
    simpa [emptyScene] using this
  · exact h2.1
  · exact h2.2

/- ------------------------------------------------------------------ -/
/- Claim C6                                                           -/
/- ------------------------------------------------------------------ -/

/-- One `PrepareScene` run, fully described, when the shader manager is
present and all five scene texture files decode to supported images: the
five texture entries and the five material presets are appended to
whatever the registries already hold, and the shader keeps its uniforms
with lighting configured. -/
theorem PrepareScene_appends (env : String → Option Image) (s : SceneState)
    (u : ShaderUniforms) (img1 img2 img3 img4 img5 : Image)
    (h1 : env "textures/Floor.jpg" = some img1)
    (hc1 : img1.channels = 3 ∨ img1.channels = 4)
    (h2 : env "textures/Leg.jpg" = some img2)
    (hc2 : img2.channels = 3 ∨ img2.channels = 4)
    (h3 : env "textures/Tabletop.jpg" = some img3)
    (hc3 : img3.channels = 3 ∨ img3.channels = 4)
    (h4 : env "textures/Plate.jpg" = some img4)
    (hc4 : img4.channels = 3 ∨ img4.channels = 4)
    (h5 : env "textures/Mug.jpg" = some img5)
    (hc5 : img5.channels = 3 ∨ img5.channels = 4)
    (hs : s.shader = some u) :
    ∃ S c, PrepareScene env s = some (S, c) ∧
      S.objectMaterials = s.objectMaterials ++
        [gravelMaterial, metalMaterial, woodMaterial,
         porcelainMaterial, glassMaterial] ∧
      S.textureIDs = s.textureIDs ++
        [⟨s.nextTexName, "floor"⟩, ⟨s.nextTexName + 1, "leg"⟩,
         ⟨s.nextTexName + 2, "tabletop"⟩, ⟨s.nextTexName + 3, "plate"⟩,
         ⟨s.nextTexName + 4, "mug"⟩] ∧
      S.shader = some { u with
                        bUseLighting := true, lightsConfigured := true } ∧
      S.nextTexName = s.nextTexName + 5 := by
  simp only [PrepareScene, LoadSceneTextures, CreateGLTexture,
    h1, h2, h3, h4, h5]
  simp only [hc1, hc2, hc3, hc4, hc5, if_true, or_true, true_or,
    if_pos, ite_true, eq_self_iff_true]
  simp only [DefineObjectMaterials, SetupSceneLights, hs]
  refine ⟨_, _, rfl, ?_, ?_, ?_, ?_⟩
  · rfl
  · simp [List.append_assoc]
  · rfl
  · rfl

/-- Claim C6: `PrepareScene` has no idempotence guard — starting from the
freshly constructed state (both registries empty, shader manager
present), one call leaves 5 materials and 5 loaded textures, and a second
call (every texture load succeeding both times) doubles both registries
to 10 entries each instead of being rejected or a no-op. -/
theorem PrepareScene_twice_doubles_registries :
    ∀ (env : String → Option Image) (s : SceneState) (u : ShaderUniforms)
      (img1 img2 img3 img4 img5 : Image),
      env "textures/Floor.jpg" = some img1 →
      (img1.channels = 3 ∨ img1.channels = 4) →
      env "textures/Leg.jpg" = some img2 →
      (img2.channels = 3 ∨ img2.channels = 4) →
      env "textures/Tabletop.jpg" = some img3 →
      (img3.channels = 3 ∨ img3.channels = 4) →
      env "textures/Plate.jpg" = some img4 →
      (img4.channels = 3 ∨ img4.channels = 4) →
      env "textures/Mug.jpg" = some img5 →
      (img5.channels = 3 ∨ img5.channels = 4) →
      s.shader = some u →
      s.objectMaterials = [] →
      s.textureIDs = [] →
      ∃ s1 c1 s2 c2,
        PrepareScene env s = some (s1, c1) ∧
        s1.objectMaterials.length = 5 ∧
        s1.textureIDs.length = 5 ∧
        PrepareScene env s1 = some (s2, c2) ∧
        s2.objectMaterials.length = 10 ∧
        s2.textureIDs.length = 10 := by
  intro env s u img1 img2 img3 img4 img5 h1 hc1 h2 hc2 h3 hc3 h4 hc4
    h5 hc5 hs hmat htex
  obtain ⟨S1, c1, hP1, hm1, ht1, hsh1, _⟩ :=
    PrepareScene_appends env s u img1 img2 img3 img4 img5
      h1 hc1 h2 hc2 h3 hc3 h4 hc4 h5 hc5 hs
  obtain ⟨S2, c2, hP2, hm2, ht2, _, _⟩ :=
    PrepareScene_appends env S1
      { u with bUseLighting := true, lightsConfigured := true }
      img1 img2 img3 img4 img5
      h1 hc1 h2 hc2 h3 hc3 h4 hc4 h5 hc5 hsh1
  refine ⟨S1, c1, S2, c2, hP1, ?_, ?_, hP2, ?_, ?_⟩
  · rw [hm1, hmat]
    rfl
  · rw [ht1, htex]
    rfl
  · rw [hm2, hm1, hmat]
    rfl
  · rw [ht2, ht1, htex]
    rfl

/-- Witness for C6: with the oracle on which every file decodes to a 2x2
RGB image and the freshly constructed scene, the double-`PrepareScene`
growth 0 → 5 → 10 is realized. -/
theorem PrepareScene_twice_doubles_registries_witness :
    envRGB "textures/Floor.jpg" = some ⟨2, 2, 3⟩ ∧
    (Image.mk 2 2 3).channels = 3 ∧
    emptyScene.shader = some initialUniforms ∧
    emptyScene.objectMaterials = [] ∧
    emptyScene.textureIDs = [] ∧
    (∃ s1 c1 s2 c2,
      PrepareScene envRGB emptyScene = some (s1, c1) ∧
      s1.objectMaterials.length = 5 ∧
      s1.textureIDs.length = 5 ∧
      PrepareScene envRGB s1 = some (s2, c2) ∧
      s2.objectMaterials.length = 10 ∧
      s2.textureIDs.length = 10) :=
  ⟨rfl, rfl, rfl, rfl, rfl,
   PrepareScene_twice_doubles_registries envRGB emptyScene initialUniforms
     ⟨2, 2, 3⟩ ⟨2, 2, 3⟩ ⟨2, 2, 3⟩ ⟨2, 2, 3⟩ ⟨2, 2, 3⟩
     rfl (Or.inl rfl) rfl (Or.inl rfl) rfl (Or.inl rfl) rfl (Or.inl rfl)
     rfl (Or.inl rfl) rfl rfl rfl⟩

/- ------------------------------------------------------------------ -/
/- Claim C4                                                           -/
/- ------------------------------------------------------------------ -/

theorem glmRotate_unitX (t : ℝ) :
    glmRotate t ⟨1, 0, 0⟩ = rotationXStd t := by
  unfold glmRotate glmNormalize rotationXStd
  norm_num

theorem glmRotate_unitY (t : ℝ) :
    glmRotate t ⟨0, 1, 0⟩ = rotationYStd t := by
  unfold glmRotate glmNormalize rotationYStd
  norm_num

theorem glmRotate_unitZ (t : ℝ) :
    glmRotate t ⟨0, 0, 1⟩ = rotationZStd t := by
  unfold glmRotate glmNormalize rotationZStd
  norm_num

theorem glmRadians_zero : glmRadians 0 = 0 := by
  unfold glmRadians
  ring

theorem rotationXStd_zero : rotationXStd 0 = 1 := by
  unfold rotationXStd
  norm_num
  ext i j
  fin_cases i <;> fin_cases j <;>
    simp [Matrix.one_apply, Matrix.cons_val_zero, Matrix.cons_val_one,
      Matrix.head_cons, Matrix.vecHead, Matrix.vecTail]

theorem rotationYStd_zero : rotationYStd 0 = 1 := by
  unfold rotationYStd
  norm_num
  ext i j
  fin_cases i <;> fin_cases j <;>
    simp [Matrix.one_apply, Matrix.cons_val_zero, Matrix.cons_val_one,
      Matrix.head_cons, Matrix.vecHead, Matrix.vecTail]

theorem rotationZStd_zero : rotationZStd 0 = 1 := by
  unfold rotationZStd
  norm_num
  ext i j
  fin_cases i <;> fin_cases j <;>
    simp [Matrix.one_apply, Matrix.cons_val_zero, Matrix.cons_val_one,
      Matrix.head_cons, Matrix.vecHead, Matrix.vecTail]

theorem scaleStd_unit : scaleStd ⟨1, 1, 1⟩ = 1 := by
  unfold scaleStd
  ext i j
  fin_cases i <;> fin_cases j <;>
    simp [Matrix.one_apply, Matrix.cons_val_zero, Matrix.cons_val_one,
      Matrix.head_cons, Matrix.vecHead, Matrix.vecTail]

theorem translateStd_zero : translateStd ⟨0, 0, 0⟩ = 1 := by
  unfold translateStd
  ext i j
  fin_cases i <;> fin_cases j <;>
    simp [Matrix.one_apply, Matrix.cons_val_zero, Matrix.cons_val_one,
      Matrix.head_cons, Matrix.vecHead, Matrix.vecTail]

/-- Claim C4: with the shader manager present, `SetTransformations`
uploads as the `model` uniform exactly the spec-side composition
`T · Rz · Ry · Rx · S` (translation outermost, Z-then-Y-then-X textbook
rotations at the degree inputs converted to radians, innermost scale);
and that composition at scale (1,1,1), rotations (0,0,0) and translation
(0,0,0) is the identity matrix. -/
theorem SetTransformations_uploads_T_Rz_Ry_Rx_S :
    ∀ (s : SceneState) (u : ShaderUniforms) (scaleXYZ : Vec3R)
      (xr yr zr : ℝ) (pos : Vec3R),
      s.shader = some u →
      SetTransformations s scaleXYZ xr yr zr pos =
        { s with
          shader := some { u with
                           model := composeTRS scaleXYZ xr yr zr pos } } ∧
      composeTRS ⟨1, 1, 1⟩ 0 0 0 ⟨0, 0, 0⟩ = 1 := by
  intro s u scaleXYZ xr yr zr pos hs
  constructor
  · unfold SetTransformations
    rw [hs]
    unfold composeTRS
    rw [glmRotate_unitX, glmRotate_unitY, glmRotate_unitZ]
    rfl
  · unfold composeTRS
    rw [glmRadians_zero, rotationXStd_zero, rotationYStd_zero,
      rotationZStd_zero, scaleStd_unit, translateStd_zero]
    simp

/-- Witness for C4: on the fresh scene the theorem applies, e.g. at
scale (2,1,1), rotations (0°, 90°, 0°), translation (1,0,0); the uploaded
model matrix is the spec-side composition, and the trivial-input
composition is the identity. -/
theorem SetTransformations_uploads_T_Rz_Ry_Rx_S_witness :
    emptyScene.shader = some initialUniforms ∧
    SetTransformations emptyScene ⟨2, 1, 1⟩ 0 90 0 ⟨1, 0, 0⟩ =
      { emptyScene with
        shader := some { initialUniforms with
                         model := composeTRS ⟨2, 1, 1⟩ 0 90 0 ⟨1, 0, 0⟩ } } ∧
    composeTRS ⟨1, 1, 1⟩ 0 0 0 ⟨0, 0, 0⟩ = 1 := by
  have h := SetTransformations_uploads_T_Rz_Ry_Rx_S emptyScene
    initialUniforms ⟨2, 1, 1⟩ 0 90 0 ⟨1, 0, 0⟩ rfl
  exact ⟨rfl, h.1, h.2⟩
